import Mathlib

/-!
Verification of the scroll-driven animation core of the threeJSworld
portfolio site.  Each definition is a shallow embedding of a function or
state-update found in the repository's source (`App.jsx`, the advanced
App variant, `LiquidMesh.jsx`, `CustomCursor.jsx`); theorems settle the
frozen specification claims against those embeddings.
-/

open Real

/- ### Mesh Transform Mapper (advanced App variant, ScrollTrigger onUpdate)

   const rotationY = progress * Math.PI * 2
   const rotationX = Math.sin(progress * Math.PI) * 0.3
   const positionY = Math.sin(progress * Math.PI * 2) * 0.5
   const positionZ = progress * 2
-/

/-- rotationY as computed in the scroll onUpdate: `progress * Math.PI * 2`. -/
noncomputable def meshRotationY (progress : ℝ) : ℝ := progress * π * 2

/-- rotationX as computed in the scroll onUpdate: `Math.sin(progress * Math.PI) * 0.3`. -/
noncomputable def meshRotationX (progress : ℝ) : ℝ := Real.sin (progress * π) * 0.3

/-- positionY as computed in the scroll onUpdate: `Math.sin(progress * Math.PI * 2) * 0.5`. -/
noncomputable def meshPositionY (progress : ℝ) : ℝ := Real.sin (progress * π * 2) * 0.5

/-- positionZ as computed in the scroll onUpdate: `progress * 2`. -/
def meshPositionZ (progress : ℝ) : ℝ := progress * 2

/-- C1: the mesh transform mapper computes rotationY = 2π·p, rotationX =
sin(p·π)·0.3, positionY = sin(p·2π)·0.5 and positionZ = p·2; consequently
positionY vanishes at both ends of the scroll range, and rotationY is
strictly increasing with rotationY 1 = 2π. -/
theorem meshTransformMapper_formulas :
    (∀ p : ℝ, meshRotationY p = 2 * π * p) ∧
    (∀ p : ℝ, meshRotationX p = Real.sin (p * π) * 0.3) ∧
    (∀ p : ℝ, meshPositionY p = Real.sin (p * 2 * π) * 0.5) ∧
    (∀ p : ℝ, meshPositionZ p = p * 2) ∧
    meshPositionY 0 = 0 ∧ meshPositionY 1 = 0 ∧
    StrictMono meshRotationY ∧ meshRotationY 1 = 2 * π := by
  refine ⟨fun p => by unfold meshRotationY; ring,
    fun p => rfl,
    fun p => by unfold meshPositionY; ring_nf,
    fun p => rfl, ?_, ?_, ?_, ?_⟩
  · unfold meshPositionY
    simp
  · unfold meshPositionY
    have h : (1 : ℝ) * π * 2 = 2 * π := by ring
    rw [h, Real.sin_two_pi, zero_mul]
  · intro a b hab
    unfold meshRotationY
    have hπ : (0 : ℝ) < π := Real.pi_pos
    nlinarith
  · unfold meshRotationY; ring

/- ### Section exit timeline (scroll-scrubbed)

   exitTl.to(sectionContent, {
     y: -100, opacity: 0, scale: 0.92, filter: 'blur(8px)', ease: 'power2.in'
   })
   with scrollTrigger { start: 'bottom 60%', end: 'bottom top', scrub: 1.5 }.

   A scrubbed tween maps the trigger's scroll progress s ∈ [0,1] through the
   ease to an interpolation weight; the ease 'power2.in' of the animation
   library is the cubic t ↦ t³.
-/

/-- The 'power2.in' ease of the animation library: cubic ease-in t³. -/
def easePower2In (t : ℝ) : ℝ := t ^ 3

/-- Opacity of the section content during the scrubbed exit tween:
interpolates from 1 (the natural state) to the configured 0. -/
def exitOpacity (s : ℝ) : ℝ := 1 + (0 - 1) * easePower2In s

/-- Blur (px) of the section content during the scrubbed exit tween:
interpolates from 0 to the configured 8. -/
def exitBlur (s : ℝ) : ℝ := 0 + (8 - 0) * easePower2In s

/-- Vertical translation of the section content during the scrubbed exit
tween: interpolates from 0 to the configured -100. -/
def exitTranslateY (s : ℝ) : ℝ := 0 + (-100 - 0) * easePower2In s

/-- Scale of the section content during the scrubbed exit tween:
interpolates from 1 to the configured 0.92. -/
def exitScale (s : ℝ) : ℝ := 1 + (0.92 - 1) * easePower2In s

/-- C6: over the scrubbed exit range, opacity and blur are continuous
functions of scroll progress; on [0,1] opacity strictly decreases and blur
strictly increases, with opacity going from exactly 1 to exactly 0 and blur
from exactly 0 to exactly its configured maximum 8. -/
theorem exitTimeline_monotone_endpoints :
    Continuous exitOpacity ∧ Continuous exitBlur ∧
    StrictAntiOn exitOpacity (Set.Icc (0 : ℝ) 1) ∧
    StrictMonoOn exitBlur (Set.Icc (0 : ℝ) 1) ∧
    exitOpacity 0 = 1 ∧ exitOpacity 1 = 0 ∧
    exitBlur 0 = 0 ∧ exitBlur 1 = 8 := by
  have hcube : ∀ a b : ℝ, 0 ≤ a → a < b → a ^ 3 < b ^ 3 := by
    intro a b ha hab
    exact pow_lt_pow_left₀ hab ha (by norm_num)
  refine ⟨?_, ?_, ?_, ?_, ?_, ?_, ?_, ?_⟩
  · unfold exitOpacity easePower2In; continuity
  · unfold exitBlur easePower2In; continuity
  · intro a ha b hb hab
    unfold exitOpacity easePower2In
    have := hcube a b ha.1 hab
    linarith
  · intro a ha b hb hab
    unfold exitBlur easePower2In
    have := hcube a b ha.1 hab
    linarith
  · unfold exitOpacity easePower2In; norm_num
  · unfold exitOpacity easePower2In; norm_num
  · unfold exitBlur easePower2In; norm_num
  · unfold exitBlur easePower2In; norm_num

/- ### Particle mode cross-fade (LiquidMesh useFrame + section callbacks)

   THREE.MathUtils.lerp(x, y, t) = (1 - t) * x + t * y.

   uniforms.uParticleMode.value =
     THREE.MathUtils.lerp(uniforms.uParticleMode.value, currentParticleMode, 0.05)

   onEnter / onEnterBack : if (isProjectSection) setParticleMode(1)
   onLeave / onLeaveBack : if (isProjectSection) setParticleMode(0)
-/

/-- `THREE.MathUtils.lerp(x, y, t) = (1 - t) * x + t * y`. -/
def mathLerp (x y t : ℚ) : ℚ := (1 - t) * x + t * y

/-- Particle-mode state: the per-frame lerped uniform value and the 0/1
target set by the section enter/leave callbacks. -/
structure PMState where
  current : ℚ
  target : ℚ
deriving DecidableEq

/-- Events acting on the particle mode: entering / leaving the
project-flagged section (in either scroll direction) and a render frame. -/
inductive PMEvent where
  | enterProjects
  | leaveProjects
  | frame
deriving DecidableEq

/-- One event's effect: the callbacks set the target to 1 resp. 0; a frame
moves the uniform toward the target by the 0.05-factor lerp. -/
def pmStep (s : PMState) : PMEvent → PMState
  | .enterProjects => { s with target := 1 }
  | .leaveProjects => { s with target := 0 }
  | .frame => { s with current := mathLerp s.current s.target (5 / 100) }

/-- The uniform starts at 0 with target 0 (uParticleMode initial value). -/
def pmInit : PMState := ⟨0, 0⟩

/-- State after an arbitrary sequence of enter/leave events and frames. -/
def pmRun (evs : List PMEvent) : PMState := evs.foldl pmStep pmInit

/-- Invariant: the uniform is in [0,1] and the target is 0 or 1. -/
def PMInv (s : PMState) : Prop :=
  (0 ≤ s.current ∧ s.current ≤ 1) ∧ (s.target = 0 ∨ s.target = 1)

theorem pmStep_inv {s : PMState} (h : PMInv s) (e : PMEvent) :
    PMInv (pmStep s e) := by
  obtain ⟨⟨h0, h1⟩, ht⟩ := h
  cases e with
  | enterProjects => exact ⟨⟨h0, h1⟩, Or.inr rfl⟩
  | leaveProjects => exact ⟨⟨h0, h1⟩, Or.inl rfl⟩
  | frame =>
      refine ⟨?_, ht⟩
      rcases ht with ht | ht <;>
        simp only [pmStep, mathLerp, ht] <;> constructor <;> linarith

theorem pmRun_inv_aux (evs : List PMEvent) :
    ∀ s : PMState, PMInv s → PMInv (evs.foldl pmStep s) := by
  induction evs with
  | nil => intro s h; exact h
  | cons e rest ih =>
      intro s h
      exact ih (pmStep s e) (pmStep_inv h e)

/-- C2: after any sequence of enter/leave events and frames, the particle
mode value stays in [0,1], and one further frame step never overshoots its
target: the new value lies between the old value and the target. -/
theorem particleMode_bounded_no_overshoot (evs : List PMEvent) :
    (0 ≤ (pmRun evs).current ∧ (pmRun evs).current ≤ 1) ∧
    min (pmRun evs).current (pmRun evs).target
        ≤ (pmStep (pmRun evs) .frame).current ∧
    (pmStep (pmRun evs) .frame).current
        ≤ max (pmRun evs).current (pmRun evs).target := by
  have hinv : PMInv (pmRun evs) := by
    apply pmRun_inv_aux
    refine ⟨⟨?_, ?_⟩, Or.inl rfl⟩ <;> norm_num [pmInit]
  obtain ⟨⟨h0, h1⟩, _⟩ := hinv
  refine ⟨⟨h0, h1⟩, ?_, ?_⟩ <;>
    rcases le_total (pmRun evs).current (pmRun evs).target with h | h <;>
      simp only [pmStep, mathLerp, min_eq_left h, min_eq_right h,
        max_eq_right h, max_eq_left h] <;> linarith

/- ### Section enter/leave side-effects (entryTl / exitTl scrollTriggers) -/

/-- The four threshold-crossing events a scroll trigger reports. -/
inductive TriggerEvent where
  | enter
  | enterBack
  | leave
  | leaveBack
deriving DecidableEq

/-- The value passed to setParticleMode by the section's scroll-trigger
callbacks (entry trigger: onEnter/onEnterBack; exit trigger:
onLeave/onLeaveBack); `none` when no call is made. -/
def particleModeCommand (isProjectSection : Bool) : TriggerEvent → Option ℚ
  | .enter => if isProjectSection then some 1 else none
  | .enterBack => if isProjectSection then some 1 else none
  | .leave => if isProjectSection then some 0 else none
  | .leaveBack => if isProjectSection then some 0 else none

/-- C3: for a feature-bearing (project) section, entering in either scroll
direction sets the particle-mode target to 1 and leaving in either
direction sets it to 0 — the side-effect is symmetric in scroll direction;
non-project sections trigger no call. -/
theorem particleModeCommand_symmetric :
    particleModeCommand true .enter = some 1 ∧
    particleModeCommand true .enterBack = some 1 ∧
    particleModeCommand true .leave = some 0 ∧
    particleModeCommand true .leaveBack = some 0 ∧
    (∀ e : TriggerEvent, particleModeCommand false e = none) := by
  refine ⟨rfl, rfl, rfl, rfl, ?_⟩
  intro e
  cases e <;> rfl

/- ### Mouse influence uniform (LiquidMesh useFrame)

   const mouseSpeed = mouseVelocity.current.length()
   const targetInfluence = Math.min(mouseSpeed * MOUSE_INFLUENCE_MULTIPLIER, 1)
   uniforms.uMouseInfluence.value =
     THREE.MathUtils.lerp(uniforms.uMouseInfluence.value, targetInfluence, 0.1)
-/

/-- `MOUSE_INFLUENCE_MULTIPLIER = 10`. -/
def MOUSE_INFLUENCE_MULTIPLIER : ℚ := 10

/-- Instantaneous influence target for a given spring-velocity magnitude:
`Math.min(mouseSpeed * MOUSE_INFLUENCE_MULTIPLIER, 1)`. -/
def targetInfluence (mouseSpeed : ℚ) : ℚ :=
  min (mouseSpeed * MOUSE_INFLUENCE_MULTIPLIER) 1

/-- Per-frame update of the uMouseInfluence uniform: one-pole lerp with
factor 0.1 toward the instantaneous target. -/
def influenceStep (u mouseSpeed : ℚ) : ℚ :=
  mathLerp u (targetInfluence mouseSpeed) (1 / 10)

/-- uMouseInfluence after a sequence of frames with the given per-frame
spring-velocity magnitudes, starting from its initial value 0. -/
def influenceRun (speeds : List ℚ) : ℚ := speeds.foldl influenceStep 0

theorem influenceRun_aux (speeds : List ℚ) :
    ∀ u : ℚ, 0 ≤ u → u ≤ 1 → (∀ x ∈ speeds, 0 ≤ x) →
      0 ≤ speeds.foldl influenceStep u ∧ speeds.foldl influenceStep u ≤ 1 := by
  induction speeds with
  | nil => intro u h0 h1 _; exact ⟨h0, h1⟩
  | cons sp rest ih =>
      intro u h0 h1 hpos
      have hsp : 0 ≤ sp := hpos sp (List.mem_cons_self sp rest)
      have htgt0 : 0 ≤ targetInfluence sp := by
        unfold targetInfluence MOUSE_INFLUENCE_MULTIPLIER
        exact le_min (by nlinarith) (by norm_num)
      have htgt1 : targetInfluence sp ≤ 1 := min_le_right _ _
      refine ih (influenceStep u sp) ?_ ?_ ?_
      · unfold influenceStep mathLerp; linarith
      · unfold influenceStep mathLerp; linarith
      · intro x hx; exact hpos x (List.mem_cons_of_mem sp hx)

/-- C9: for every frame sequence whose spring-velocity magnitudes are
non-negative (as magnitudes are), the uMouseInfluence uniform stays in
[0,1]: each instantaneous target min(speed·10, 1) lies in [0,1] and the
0.1-factor lerp keeps the uniform between 0 and 1. -/
theorem mouseInfluence_bounded (speeds : List ℚ)
    (h : ∀ x ∈ speeds, 0 ≤ x) :
    0 ≤ influenceRun speeds ∧ influenceRun speeds ≤ 1 :=
  influenceRun_aux speeds 0 (le_refl 0) (by norm_num) h

/-- Witness for C9: a concrete frame sequence of non-negative speeds keeps
the uniform in [0,1]. -/
theorem mouseInfluence_bounded_witness :
    (∀ x ∈ ([1/2, 0, 3] : List ℚ), 0 ≤ x) ∧
    (0 ≤ influenceRun [1/2, 0, 3] ∧ influenceRun [1/2, 0, 3] ≤ 1) := by
  have h : ∀ x ∈ ([1/2, 0, 3] : List ℚ), 0 ≤ x := by
    intro x hx
    fin_cases hx <;> norm_num
  exact ⟨h, mouseInfluence_bounded [1/2, 0, 3] h⟩

/- ### Direct property setters (initQuickSetters / scroll onUpdate guard)

   let setMeshRotationY, ...
   const initQuickSetters = () => {
     if (meshRef.current) { setMeshRotationY = gsap.quickSetter(...); ... } }
   onUpdate: scrollRef.current = progress; ...
     if (meshRef.current) {
       if (!setMeshRotationY) initQuickSetters()
       if (setMeshRotationY) { setMeshRotationY(rotationY); ... } }
-/

/-- The mesh's live transform state (rotation.y, rotation.x, position.y,
position.z). -/
structure MeshTransform where
  rotY : ℚ
  rotX : ℚ
  posY : ℚ
  posZ : ℚ
deriving DecidableEq

/-- The App-side state the scroll onUpdate touches: the mesh ref (absent
until the mesh mounts), whether the four quick setters have been
constructed, and the scroll progress ref. -/
structure AppMeshState where
  meshRef : Option MeshTransform
  settersInit : Bool
  scrollVal : ℚ
deriving DecidableEq

/-- `initQuickSetters`: constructs the four setters iff the mesh ref is
present; otherwise does nothing. -/
def initQuickSetters (st : AppMeshState) : AppMeshState :=
  if st.meshRef.isSome then { st with settersInit := true } else st

/-- The apply path guarded by `if (setMeshRotationY)`: with the setters
constructed it performs the four direct numeric writes; otherwise the
frame is skipped and the state is untouched. -/
def applySetters (st : AppMeshState) (rY rX pY pZ : ℚ) : AppMeshState :=
  if st.settersInit then
    { st with meshRef := st.meshRef.map fun _ => ⟨rY, rX, pY, pZ⟩ }
  else st

/-- The scroll ScrollTrigger onUpdate body: always refresh the scroll ref;
if the mesh ref is present, construct the setters on first use and apply
the four values; if it is absent, skip. -/
def meshOnUpdate (p rY rX pY pZ : ℚ) (st : AppMeshState) : AppMeshState :=
  let st1 := { st with scrollVal := p }
  if st1.meshRef.isSome then
    let st2 := if st1.settersInit then st1 else initQuickSetters st1
    applySetters st2 rY rX pY pZ
  else st1

/-- C4: a scroll update arriving while the mesh ref is absent changes
nothing but the scroll ref (no setter construction, no transform write,
no failure); the apply path with unconstructed setters is the identity;
and with constructed setters it writes exactly the four given numbers to
the transform with no interpolation. -/
theorem quickSetters_guard (st : AppMeshState) (p rY rX pY pZ : ℚ) :
    (st.meshRef = none →
      meshOnUpdate p rY rX pY pZ st = { st with scrollVal := p }) ∧
    (st.settersInit = false → applySetters st rY rX pY pZ = st) ∧
    (∀ m : MeshTransform, st.settersInit = true → st.meshRef = some m →
      (applySetters st rY rX pY pZ).meshRef = some ⟨rY, rX, pY, pZ⟩ ∧
      (applySetters st rY rX pY pZ).settersInit = true ∧
      (applySetters st rY rX pY pZ).scrollVal = st.scrollVal) := by
  refine ⟨?_, ?_, ?_⟩
  · intro hnone
    unfold meshOnUpdate
    simp [hnone]
  · intro hfalse
    unfold applySetters
    simp [hfalse]
  · intro m htrue hsome
    unfold applySetters
    simp [htrue, hsome]

/-- Witness for C4: on a concrete state with no mesh ref and unconstructed
setters, the update only moves the scroll ref and the apply path is the
identity. -/
theorem quickSetters_guard_witness :
    (⟨none, false, 0⟩ : AppMeshState).meshRef = none ∧
    meshOnUpdate 1 2 3 4 5 ⟨none, false, 0⟩ = ⟨none, false, 1⟩ ∧
    applySetters ⟨none, false, 0⟩ 2 3 4 5 = ⟨none, false, 0⟩ := by
  have h := quickSetters_guard ⟨none, false, 0⟩ 1 2 3 4 5
  exact ⟨rfl, h.1 rfl, h.2.1 rfl⟩

/- ### splitTextIntoChars (text splitting helper)

   const NON_BREAKING_SPACE = ' '
   function splitTextIntoChars(element) {
     const text = element.textContent
     element.innerHTML = ''
     const chars = text.split('')
     return chars.map((char, i) => {
       const span = document.createElement('span')
       span.textContent = char === ' ' ? NON_BREAKING_SPACE : char
       ...
       span.className = 'split-char'
       element.appendChild(span)
       return span })
   }
-/

/-- The non-breaking space character U+00A0. -/
def NON_BREAKING_SPACE : Char := Char.ofNat 0xA0

/-- A created span element: its text (a single character here) and class. -/
structure SpanEl where
  textContent : Char
  className : String
deriving DecidableEq

/-- `splitTextIntoChars` on an element's textContent: split into single
characters and wrap each in a span, replacing a space by the non-breaking
space. -/
def splitTextIntoChars (text : String) : List SpanEl :=
  let chars := text.toList
  chars.map fun char =>
    { textContent := if char = ' ' then NON_BREAKING_SPACE else char
      className := "split-char" }

/-- C10: splitTextIntoChars yields one span per character of the original
text, in order (the i-th span carries the i-th character, space turned
into U+00A0), so the concatenation of the spans' text is the original
text with each space replaced by the non-breaking space — nothing is
dropped, duplicated or reordered. -/
theorem splitTextIntoChars_preserves_text (text : String) :
    (splitTextIntoChars text).length = text.length ∧
    (∀ i : ℕ, ((splitTextIntoChars text)[i]?).map SpanEl.textContent =
      (text.toList[i]?).map fun c =>
        if c = ' ' then NON_BREAKING_SPACE else c) ∧
    String.mk ((splitTextIntoChars text).map SpanEl.textContent) =
      String.mk (text.toList.map fun c =>
        if c = ' ' then NON_BREAKING_SPACE else c) := by
  refine ⟨?_, ?_, ?_⟩
  · simp only [splitTextIntoChars, List.length_map]
    rfl
  · intro i
    simp only [splitTextIntoChars, List.getElem?_map, Option.map_map]
    cases text.toList[i]? <;> rfl
  · simp only [splitTextIntoChars, List.map_map]
    rfl

/- ### Entry timeline sub-sequence scheduling (entryTl.fromTo children)

   entryTl.fromTo(sectionContent, ..., { duration: 1 }, 0)
   entryTl.fromTo(chars, ..., { duration: 0.8, stagger: 0.03 }, 0.2)
   entryTl.fromTo(words, ..., { duration: 0.6, stagger: 0.04 }, 0.4 + pIndex * 0.15)
   entryTl.fromTo(listItems, ..., { duration: 0.6, stagger: 0.08 }, 0.5)
   entryTl.fromTo(cards, ..., { duration: 0.7, stagger: 0.12 }, 0.4)

   A staggered child with `count` targets starts at its offset and finishes
   when its last target does: offset + stagger·(count−1) + duration.
-/

/-- Completion time of a staggered timeline child with `count` targets:
`offset + stagger·(count−1) + duration`. -/
def childEnd (offset duration stagger : ℚ) (count : ℕ) : ℚ :=
  offset + stagger * ((count : ℚ) - 1) + duration

/-- Start offset of the section-content container child. -/
def contentOffset : ℚ := 0

/-- Duration of the section-content container child. -/
def contentDuration : ℚ := 1

/-- Start offset of the heading character-reveal child. -/
def headingOffset : ℚ := 0.2

/-- Duration of each heading character tween. -/
def headingDuration : ℚ := 0.8

/-- Stagger between heading characters. -/
def headingStagger : ℚ := 0.03

/-- Start offset of the word-reveal child of the `pIndex`-th paragraph:
`0.4 + pIndex * 0.15`. -/
def paragraphOffset (pIndex : ℕ) : ℚ := 0.4 + (pIndex : ℚ) * 0.15

/-- Duration of each paragraph word tween. -/
def paragraphDuration : ℚ := 0.6

/-- Stagger between paragraph words. -/
def paragraphStagger : ℚ := 0.04

/-- Start offset of the list-items child. -/
def listOffset : ℚ := 0.5

/-- Duration of each list-item tween. -/
def listDuration : ℚ := 0.6

/-- Stagger between list items. -/
def listStagger : ℚ := 0.08

/-- Start offset of the stat/experience-cards child. -/
def cardOffset : ℚ := 0.4

/-- Duration of each card tween. -/
def cardDuration : ℚ := 0.7

/-- Stagger between cards. -/
def cardStagger : ℚ := 0.12

/-- Counterexample to C8's completion-order part: with the hero section's
element counts from the repository markup (3 stat cards, one paragraph of
2 words), the cards child finishes at 0.4 + 0.12·2 + 0.7 = 1.34, after the
paragraph words child at 0.4 + 0.04·1 + 0.6 = 1.04 — so the sub-sequences
do not complete in the order cards-then-paragraph-words. -/
theorem entryOrder_counterexample :
    ¬ (childEnd cardOffset cardDuration cardStagger 3 ≤
        childEnd (paragraphOffset 0) paragraphDuration paragraphStagger 2) := by
  norm_num [childEnd, cardOffset, cardDuration, cardStagger,
    paragraphOffset, paragraphDuration, paragraphStagger]

/-- C8 (amended): every sub-sequence of a section's entry timeline starts
at its fixed offset from sequence start — content container at 0, heading
characters at 0.2, stat/experience cards at 0.4, the pIndex-th paragraph's
words at 0.4 + 0.15·pIndex, list items at 0.5 — so the starts are ordered
container, heading, cards together with the first paragraph, then list
items; and the content container completes no later than any other
sub-sequence, whatever the (positive) element counts.  The completion
order of the remaining sub-sequences depends on the element counts. -/
theorem entryTimeline_offsets :
    contentOffset = 0 ∧ headingOffset = 0.2 ∧ cardOffset = 0.4 ∧
    (∀ p : ℕ, paragraphOffset p = 0.4 + 0.15 * (p : ℚ)) ∧
    listOffset = 0.5 ∧
    contentOffset < headingOffset ∧ headingOffset < cardOffset ∧
    paragraphOffset 0 = cardOffset ∧ cardOffset < listOffset ∧
    (∀ p : ℕ, paragraphOffset p < paragraphOffset (p + 1)) ∧
    (∀ n : ℕ, childEnd contentOffset contentDuration 0 1 ≤
      childEnd headingOffset headingDuration headingStagger (n + 1)) ∧
    (∀ n : ℕ, childEnd contentOffset contentDuration 0 1 ≤
      childEnd cardOffset cardDuration cardStagger (n + 1)) ∧
    (∀ p n : ℕ, childEnd contentOffset contentDuration 0 1 ≤
      childEnd (paragraphOffset p) paragraphDuration paragraphStagger (n + 1)) ∧
    (∀ n : ℕ, childEnd contentOffset contentDuration 0 1 ≤
      childEnd listOffset listDuration listStagger (n + 1)) := by
  refine ⟨rfl, rfl, rfl, fun p => by unfold paragraphOffset; ring,
    rfl, ?_, ?_, ?_, ?_, ?_, ?_, ?_, ?_, ?_⟩
  · norm_num [contentOffset, headingOffset]
  · norm_num [headingOffset, cardOffset]
  · norm_num [paragraphOffset, cardOffset]
  · norm_num [cardOffset, listOffset]
  · intro p
    unfold paragraphOffset
    push_cast
    nlinarith [Nat.cast_nonneg (α := ℚ) p]
  · intro n
    unfold childEnd contentOffset contentDuration headingOffset
      headingDuration headingStagger
    push_cast
    nlinarith [Nat.cast_nonneg (α := ℚ) n]
  · intro n
    unfold childEnd contentOffset contentDuration cardOffset
      cardDuration cardStagger
    push_cast
    nlinarith [Nat.cast_nonneg (α := ℚ) n]
  · intro p n
    unfold childEnd contentOffset contentDuration paragraphOffset
      paragraphDuration paragraphStagger
    push_cast
    nlinarith [Nat.cast_nonneg (α := ℚ) n, Nat.cast_nonneg (α := ℚ) p]
  · intro n
    unfold childEnd contentOffset contentDuration listOffset
      listDuration listStagger
    push_cast
    nlinarith [Nat.cast_nonneg (α := ℚ) n]

/- ### Entry timeline toggleActions (replayability across re-crossings)

   Advanced App variant: entryTl scrollTrigger
     toggleActions: 'play none none none'
   Simple App variant (App.jsx): gsap.fromTo section scrollTrigger
     toggleActions: 'play none none reverse'

   The animation library's documented toggleActions semantics (external
   collaborator, modelled here): the four words are the actions fired on
   onEnter / onLeave / onEnterBack / onLeaveBack.  'play' plays forward
   from the current playhead to the end (a completed timeline stays at its
   end — it is not rewound first), 'reverse' plays backward from the
   current playhead to the start, 'none' does nothing.
-/

/-- A toggleActions word (only the ones the repository uses). -/
inductive TogAction where
  | play
  | reverse
  | noAction
deriving DecidableEq

/-- The four toggleActions slots of a scroll trigger, in the order
onEnter, onLeave, onEnterBack, onLeaveBack. -/
structure ToggleActions where
  onEnter : TogAction
  onLeave : TogAction
  onEnterBack : TogAction
  onLeaveBack : TogAction

/-- `toggleActions: 'play none none none'` of the advanced variant's entry
timelines. -/
def entryToggleActions : ToggleActions :=
  ⟨.play, .noAction, .noAction, .noAction⟩

/-- `toggleActions: 'play none none reverse'` of the simple variant's
section fade tweens. -/
def fadeToggleActions : ToggleActions :=
  ⟨.play, .noAction, .noAction, .reverse⟩

/-- Effect of one toggleActions word on a timeline playhead in [0,1]:
the new playhead, and the playback segment (from, to) if playback ran. -/
def runTogAction (a : TogAction) (pos : ℚ) : ℚ × Option (ℚ × ℚ) :=
  match a with
  | .play => (1, some (pos, 1))
  | .reverse => (0, some (pos, 0))
  | .noAction => (pos, none)

/-- One threshold-crossing event against a trigger's toggleActions. -/
def timelineStep (cfg : ToggleActions) (pos : ℚ) : TriggerEvent → ℚ × Option (ℚ × ℚ)
  | .enter => runTogAction cfg.onEnter pos
  | .leave => runTogAction cfg.onLeave pos
  | .enterBack => runTogAction cfg.onEnterBack pos
  | .leaveBack => runTogAction cfg.onLeaveBack pos

/-- Playhead after a sequence of threshold crossings, starting at 0. -/
def timelineRun (cfg : ToggleActions) (evs : List TriggerEvent) : ℚ :=
  evs.foldl (fun pos e => (timelineStep cfg pos e).1) 0

/-- Counterexample to C5: with the advanced variant's
`toggleActions: 'play none none none'`, cross the entry threshold
(enter), scroll back above it (leaveBack), and cross it again (enter).
The second enter's playback segment is (1, 1) — the timeline is already
at its end and nothing replays — not the full (0, 1) replay from the
start that the claim asserts. -/
theorem entryReplay_counterexample :
    (timelineStep entryToggleActions
      (timelineRun entryToggleActions [.enter, .leaveBack]) .enter).2
        = some (1, 1) ∧
    some ((1 : ℚ), (1 : ℚ)) ≠ some ((0 : ℚ), (1 : ℚ)) := by
  constructor
  · rfl
  · simp only [ne_eq, Option.some.injEq, Prod.mk.injEq, not_and]
    intro h
    norm_num at h

/-- C5 (amended): entry-sequence replayability depends on the variant.
With the advanced variant's 'play none none none', the entry timeline
plays fully ((0,1)) on the first crossing, and after scrolling back above
the section and re-crossing, the play action finds the playhead already at
the end — the segment (1,1) — so the sequence is not replayed, however
often it is re-crossed.  With the simple variant's
'play none none reverse', scrolling back above the section reverses the
timeline to its start, so re-crossing replays the full sequence (0,1). -/
theorem entryReplay_by_variant :
    (timelineStep entryToggleActions 0 .enter).2 = some (0, 1) ∧
    timelineRun entryToggleActions [.enter, .leaveBack] = 1 ∧
    (timelineStep entryToggleActions 1 .enter).2 = some (1, 1) ∧
    (timelineStep fadeToggleActions 0 .enter).2 = some (0, 1) ∧
    timelineRun fadeToggleActions [.enter, .leaveBack] = 0 ∧
    (timelineStep fadeToggleActions
      (timelineRun fadeToggleActions [.enter, .leaveBack]) .enter).2
        = some (0, 1) := by
  exact ⟨rfl, rfl, rfl, rfl, rfl, rfl⟩

/- ### Cursor follower spring (CustomCursor animate loop)

   const springStiffness = 0.15
   const dampening = 0.75
   velocity.current.x += (mousePos.current.x - cursorPos.current.x) * springStiffness
   velocity.current.x *= dampening
   cursorPos.current.x += velocity.current.x
   (and identically, independently, for y)

   One axis of the 2-D follower is modelled; arithmetic is exact rational
   arithmetic.  cursorIterZ is a scaled integer image of the trajectory
   (position and velocity at frame n are the integers divided by 80^n),
   used to evaluate the iteration exactly.
-/

/-- springStiffness = 0.15. -/
def springStiffness : ℚ := 0.15

/-- dampening = 0.75. -/
def dampening : ℚ := 0.75

/-- One frame of the cursor spring on one axis: velocity +=
(target − pos)·stiffness; velocity ×= dampening; pos += velocity. -/
def cursorStep (target pos vel : ℚ) : ℚ × ℚ :=
  let vel1 := vel + (target - pos) * springStiffness
  let vel2 := vel1 * dampening
  (pos + vel2, vel2)

/-- Cursor trajectory from rest at position 0 with a stationary pointer
target: (position, velocity) after n frames. -/
def cursorIter (target : ℚ) : ℕ → ℚ × ℚ
  | 0 => (0, 0)
  | n + 1 => cursorStep target (cursorIter target n).1 (cursorIter target n).2

/-- Integer image of the target-500 trajectory, scaled by 80^n at frame n:
one spring frame multiplies denominators by at most 80. -/
def cursorIterZ : ℕ → ℤ × ℤ
  | 0 => (0, 0)
  | n + 1 =>
      let v := 60 * (cursorIterZ n).2 + 9 * (500 * 80 ^ n - (cursorIterZ n).1)
      (80 * (cursorIterZ n).1 + v, v)

theorem cursorIter_scaled (n : ℕ) :
    cursorIter 500 n =
      (((cursorIterZ n).1 : ℚ) / 80 ^ n, ((cursorIterZ n).2 : ℚ) / 80 ^ n) := by
  induction n with
  | zero => simp [cursorIter, cursorIterZ]
  | succ n ih =>
      simp only [cursorIter, cursorIterZ, cursorStep, ih,
        springStiffness, dampening]
      have h : ((80 : ℚ)) ^ n ≠ 0 := by positivity
      rw [Prod.ext_iff]
      constructor <;>
        · simp only []
          push_cast
          field_simp
          ring

theorem cursorVel1 : (cursorIter 500 1).2 = 4500 / 80 := by
  rw [cursorIter_scaled]
  norm_num [show cursorIterZ 1 = (4500, 4500) from by decide]

theorem cursorVel2 : (cursorIter 500 2).2 = 589500 / 80 ^ 2 := by
  rw [cursorIter_scaled]
  norm_num [show cursorIterZ 2 = (949500, 589500) from by decide]

theorem cursorPos40 :
    (cursorIter 500 40).1 = (6626822963481965746016070567405999422459669237911512996298270882482870151129500 : ℚ) / 80 ^ 40 := by
  rw [cursorIter_scaled]
  norm_num [show cursorIterZ 40 = (6626822963481965746016070567405999422459669237911512996298270882482870151129500, 5484900496277903392571256186578431722181052557068501777229494991804235569500) from by decide]

set_option maxRecDepth 8192 in
theorem cursorPos71 :
    (cursorIter 500 71).1 = (658207562952460799729923590817991502596133479952961227438497302021308949598981079097833853123417907457787493876215564419661270746714664500 : ℚ) / 80 ^ 71 := by
  rw [cursorIter_scaled]
  norm_num [show cursorIterZ 71 = (658207562952460799729923590817991502596133479952961227438497302021308949598981079097833853123417907457787493876215564419661270746714664500, -9629196622440955658549993986545954929195006967467653370629049601560856187651180341168137263180117380208796872873853996557675079695500) from by decide]

/-- Counterexample to C7: with the pointer target stationary at 500 and
the follower starting at rest from a 500px offset (the claim's own
scenario), the velocity magnitude rises between frames 1 and 2 (56.25 →
92.109375) instead of strictly decreasing, and after 40 frames the
residual is still about 1.45px, not below 0.01px. -/
theorem cursorSpring_counterexample :
    ¬ (|(cursorIter 500 2).2| < |(cursorIter 500 1).2|) ∧
    ¬ (|500 - (cursorIter 500 40).1| < 1 / 100) := by
  constructor
  · rw [cursorVel1, cursorVel2, abs_of_nonneg (by positivity),
      abs_of_nonneg (by positivity)]
    norm_num
  · rw [cursorPos40,
      show (500 : ℚ) - (6626822963481965746016070567405999422459669237911512996298270882482870151129500 : ℚ) / 80 ^ 40 = (19317015442613618502964733995723457540330762088487003701729117517129848870500 : ℚ) / 80 ^ 40 from by
        norm_num,
      abs_of_nonneg (by positivity)]
    norm_num

/-- C7 (amended): the per-frame step is exactly velocity += (target −
current)·0.15, velocity ×= 0.75, current += velocity; but the spring is
underdamped: from a 500px offset at rest the velocity magnitude first
grows (frame 1 to frame 2), the residual after 40 frames is still at
least 0.01px, and the residual falls below 0.01px by frame 71. -/
theorem cursorSpring_step_convergence :
    (∀ target pos vel : ℚ,
      cursorStep target pos vel =
        (pos + (vel + (target - pos) * 0.15) * 0.75,
          (vel + (target - pos) * 0.15) * 0.75)) ∧
    |(cursorIter 500 1).2| < |(cursorIter 500 2).2| ∧
    (1 / 100 : ℚ) ≤ |500 - (cursorIter 500 40).1| ∧
    |500 - (cursorIter 500 71).1| < 1 / 100 := by
  refine ⟨fun target pos vel => rfl, ?_, ?_, ?_⟩
  · rw [cursorVel1, cursorVel2, abs_of_nonneg (by positivity),
      abs_of_nonneg (by positivity)]
    norm_num
  · rw [cursorPos40,
      show (500 : ℚ) - (6626822963481965746016070567405999422459669237911512996298270882482870151129500 : ℚ) / 80 ^ 40 = (19317015442613618502964733995723457540330762088487003701729117517129848870500 : ℚ) / 80 ^ 40 from by
        norm_num,
      abs_of_nonneg (by positivity)]
    norm_num
  · rw [cursorPos71,
      show (500 : ℚ) - (658207562952460799729923590817991502596133479952961227438497302021308949598981079097833853123417907457787493876215564419661270746714664500 : ℚ) / 80 ^ 71 = -((5740023978382867935917795051300603039133699529282099053692421308949598981079097833853123417907457787493876215564419661270746714664500 : ℚ) / 80 ^ 71) from by
        norm_num,
      abs_neg, abs_of_nonneg (by positivity)]
    norm_num
